import Mathlib

/-!
Verification development for the `lw_mlearn` repository
(`lw_mlearn/lw_model.py`): a thin orchestration layer (`ML_model`)
around scikit-learn estimators.  The scikit-learn library itself is
external to the repository, so its primitives (`check_cv`, cross
validators, `GridSearchCV`, scorer resolution, `roc_curve`, `auc`,
estimator `fit` / `decision_function` / `predict_proba`) are modelled
as abstract parameters; the repository's own control flow is embedded
faithfully from `lw_model.py`.
-/

set_option autoImplicit false

namespace LwMlearn

/-! ### Cross-validation splitting: `_split_cv` (lw_model.py, lines 1063-1111) -/

/-- Model of a scikit-learn cross-validator object as returned by
`sklearn.model_selection._split.check_cv`: it may or may not expose a
`random_state` attribute (`hasRandomState`), carries its current
`random_state` value, and its `split` method yields a sequence of
(train-indices, test-indices) pairs, given the effective random state,
the first array, `y`, and `groups` (mirroring `cv.split(arrays[0], y,
groups)`). -/
structure CVIter (α : Type) where
  hasRandomState : Bool
  randomState : Option Int
  splitF : Option Int → List α → Option (List α) → Option (List Nat) →
    List (List Nat × List Nat)

/-- Model of the two ways `lw_model._split_cv` obtains a cross-validator
from scikit-learn: `check_cv(cv, y=y, classifier=True)` (stratified on
`y`) and `check_cv(cv, classifier=False)`. -/
structure SkSplit (α : Type) where
  check_cv_classifier : Int → List α → CVIter α
  check_cv_plain : Int → CVIter α

/-- Model of `sklearn.model_selection._split.safe_indexing`: select the
rows of `a` at the given positions. Out-of-range positions are totalised
with `default`; scikit-learn would raise there, and all uses below stay
in range. -/
def safe_indexing {α : Type} [Inhabited α] (a : List α) (idx : List Nat) : List α :=
  idx.map (fun i => a.getD i default)

/-- Model of `lw_model._reset_index` (lines 1051-1060): pandas frames get
`reset_index(drop=True)`, other arrays pass through.  With arrays
modelled as plain row lists (no index labels), resetting the index
leaves the rows unchanged, so this is the identity on the row contents. -/
def _reset_index {α : Type} (arrays : List (List α)) : List (List α) :=
  arrays

/-- Decide whether all lengths in the list agree, modelling
`sklearn.utils.check_consistent_length` applied to the arrays together
with `y` and `groups` (None entries are skipped by scikit-learn). -/
def allSameLength : List Nat → Bool
  | [] => true
  | n :: ns => ns.all (fun k => k = n)

/-- The list of sample counts checked by `check_consistent_length(*arrays,
y, groups)` in `_split_cv`. -/
def sampleCounts {α : Type} (arrays : List (List α)) (y : Option (List α))
    (groups : Option (List Nat)) : List Nat :=
  arrays.map List.length ++ (y.map List.length).toList ++ (groups.map List.length).toList

/-- The arrays actually split: `y` is appended as the last array when it
is given (`arrays.append(y)` in both the `cv == 1` branch and the
stratified branch of `_split_cv`). -/
def appendY {α : Type} (arrays : List (List α)) : Option (List α) → List (List α)
  | some yy => arrays ++ [yy]
  | none => arrays

/-- Embedding of `lw_model._split_cv` (lines 1063-1111).  Python errors
(`ValueError` from the empty-input check and from
`check_consistent_length`) become `Except.error`.  For `cv == 1` the
whole un-split arrays are returned as a single fold; otherwise a
cross-validator is obtained from `check_cv` (stratified when `y` is
given), its `random_state` is set to the given `random_state` when the
validator has that attribute, and each index pair it yields is applied
to every index-reset array via `safe_indexing`. -/
def _split_cv {α : Type} [Inhabited α] (sk : SkSplit α)
    (arrays : List (List α)) (y : Option (List α)) (groups : Option (List Nat))
    (cv : Int) (random_state : Option Int) :
    Except String (List (List ((List α) × (List α)))) :=
  if arrays.length = 0 then
    .error "At least one array required as input"
  else if allSameLength (sampleCounts arrays y groups) = false then
    .error "Found input variables with inconsistent numbers of samples"
  else if cv = 1 then
    .ok [(appendY arrays y).map (fun a => (a, a))]
  else
    let arrays2 := appendY arrays y
    let cvIter := match y with
      | some yy => sk.check_cv_classifier cv yy
      | none => sk.check_cv_plain cv
    let rs := if cvIter.hasRandomState then random_state else cvIter.randomState
    let arrs := _reset_index arrays2
    let folds := cvIter.splitF rs (arrs.headD []) y groups
    .ok (folds.map (fun ti => arrs.map (fun a => (safe_indexing a ti.1, safe_indexing a ti.2))))

/-- Specification-side definition, following the spec's words for every
call: the folds are exactly those produced by the cross-validator
obtained from scikit-learn's `check_cv` (stratified on `y` when `y` is
given, with `random_state` set to the given seed when the validator has
one), applied via `safe_indexing` to the index-reset arrays.  Unlike
`_split_cv` it has no special `cv == 1` branch. -/
def split_cv_delegated {α : Type} [Inhabited α] (sk : SkSplit α)
    (arrays : List (List α)) (y : Option (List α)) (groups : Option (List Nat))
    (cv : Int) (random_state : Option Int) :
    Except String (List (List ((List α) × (List α)))) :=
  if arrays.length = 0 then
    .error "At least one array required as input"
  else if allSameLength (sampleCounts arrays y groups) = false then
    .error "Found input variables with inconsistent numbers of samples"
  else
    let arrays2 := appendY arrays y
    let cvIter := match y with
      | some yy => sk.check_cv_classifier cv yy
      | none => sk.check_cv_plain cv
    let rs := if cvIter.hasRandomState then random_state else cvIter.randomState
    let arrs := _reset_index arrays2
    let folds := cvIter.splitF rs (arrs.headD []) y groups
    .ok (folds.map (fun ti => arrs.map (fun a => (safe_indexing a ti.1, safe_indexing a ti.2))))

/-- A concrete scikit-learn splitting model used for counterexamples:
at `cv = 1` scikit-learn's `check_cv` builds a `(Stratified)KFold` with
`n_splits = 1`, whose constructor raises `ValueError` (at least 2 splits
are required), so the delegated computation yields no usable folds;
this total model returns the empty fold sequence there. -/
def skZero : SkSplit Nat :=
  { check_cv_classifier := fun _ _ =>
      { hasRandomState := true, randomState := none, splitF := fun _ _ _ _ => [] }
    check_cv_plain := fun _ =>
      { hasRandomState := true, randomState := none, splitF := fun _ _ _ _ => [] } }

/-! ### Scorer resolution: `ML_model._get_scorer` (lw_model.py, lines 181-196) -/

/-- A scoring specification as accepted by the scoring methods: a single
metric name or a list of metric names. -/
inductive ScoringArg
  | single (s : String)
  | many (l : List String)

/-- Modelled from the spec: `get_flat_list` lives in
`lw_mlearn.utilis.utilis`, which is not among the sources here.  Per the
spec a scoring specification is "a name or list of names";
`get_flat_list` flattens it to the list of requested names. -/
def get_flat_list : ScoringArg → List String
  | .single s => [s]
  | .many l => l

/-- Python dict assignment `d[k] = v`, on dictionaries modelled as lookup
functions. -/
def dinsert {S : Type} (d : String → Option S) (k : String) (v : S) :
    String → Option S :=
  fun s => if s = k then some v else d s

/-- Python `d.update(kvs)`: later bindings shadow earlier ones. -/
def dupdate {S : Type} (d : String → Option S) (kvs : List (String × S)) :
    String → Option S :=
  kvs.foldl (fun acc kv => dinsert acc kv.1 kv.2) d

/-- Model of scikit-learn's
`sklearn.model_selection._validation._check_multimetric_scoring`: the
returned dict maps each requested name to the scorer scikit-learn
resolves for that name (`sk_resolve`, which also captures the estimator
argument). -/
def _check_multimetric_scoring {S : Type} (sk_resolve : String → S)
    (names : List String) : List (String × S) :=
  names.map (fun n => (n, sk_resolve n))

/-- The loop of `_get_scorer`: names found in the custom-scorer dict are
inserted into the result dict at once; the remaining names are collected
into `sk_scoring` for scikit-learn resolution. -/
def scorerLoop {S : Type} (custom : String → Option S)
    (acc : (String → Option S) × List String) (l : List String) :
    (String → Option S) × List String :=
  l.foldl (fun acc i =>
    match custom i with
    | some c => (dinsert acc.1 i c, acc.2)
    | none => (acc.1, acc.2 ++ [i])) acc

/-- Embedding of `ML_model._get_scorer` (lines 181-196).  `custom` models
`get_custom_scorer()` from `lw_mlearn.lw_preprocess` (repository code
not among the sources here, kept abstract); `sk_resolve` models
scikit-learn scorer resolution for one name. -/
def _get_scorer {S : Type} (custom : String → Option S) (sk_resolve : String → S)
    (scoring : ScoringArg) : String → Option S :=
  let acc := scorerLoop custom ((fun _ => none), []) (get_flat_list scoring)
  if acc.2.length > 0 then
    dupdate acc.1 (_check_multimetric_scoring sk_resolve acc.2)
  else
    acc.1

/-! ### The `ML_model` state and constructor (lw_model.py, lines 40-131) -/

/-- The `ML_model` state relevant to the claims: the five constructor
parameters (`estimator`, `path`, `seed`, `verbose`, `pos_label`) plus the
mutable results `gridcv_results` (None until a grid search ran) and the
`trainscore` / `testscore` attributes (absent until `run_analysis` sets
them, modelled as `Option`). -/
structure MLModel (E R Sc : Type) where
  estimator : E
  path : String
  seed : Int
  verbose : Int
  pos_label : Nat
  gridcv_results : Option R
  trainscore : Option Sc
  testscore : Option Sc
deriving DecidableEq

/-- The `estimator` argument of `ML_model.__init__` when it is not None:
either a string (resolved through `pipe_main`) or an object. -/
inductive EstimatorArg (E : Type)
  | str (s : String)
  | obj (e : E)

/-- Embedding of `ML_model.__init__` (lines 100-131).  `pipe_main` models
`lw_mlearn.lw_preprocess.pipe_main` (repository code not among the
sources here, kept abstract); `hasEstimatorType` models
`hasattr(estimator, '_estimator_type')`, the code's test for a
scikit-learn-compatible estimator; `folderPipes` models the `.pipe`
estimators found on disk for the None branch.  `raise ValueError`
becomes `Except.error`. -/
def ML_model_init {E : Type} (R Sc : Type)
    (pipe_main : String → E) (hasEstimatorType : E → Bool) (folderPipes : List E)
    (estimator : Option (EstimatorArg E)) (path : String) (seed verbose : Int)
    (pos_label : Nat) : Except String (MLModel E R Sc) :=
  match estimator with
  | some (.str s) =>
      .ok { estimator := pipe_main s, path := path, seed := seed, verbose := verbose,
            pos_label := pos_label, gridcv_results := none, trainscore := none,
            testscore := none }
  | some (.obj e) =>
      if hasEstimatorType e then
        .ok { estimator := e, path := path, seed := seed, verbose := verbose,
              pos_label := pos_label, gridcv_results := none, trainscore := none,
              testscore := none }
      else
        .error "invalid estimator input type"
  | none =>
      match folderPipes with
      | e :: _ =>
          .ok { estimator := e, path := path, seed := seed, verbose := verbose,
                pos_label := pos_label, gridcv_results := none, trainscore := none,
                testscore := none }
      | [] =>
          .ok { estimator := pipe_main "dummy", path := path, seed := seed,
                verbose := verbose, pos_label := pos_label, gridcv_results := none,
                trainscore := none, testscore := none }

/-- The saved configuration of an `ML_model`: exactly the constructor
parameters, as returned by `self.get_params(False)` (scikit-learn
`BaseEstimator.get_params` reads the attributes named after the
`__init__` parameters). -/
structure MLConfig (E : Type) where
  estimator : E
  path : String
  seed : Int
  verbose : Int
  pos_label : Nat
deriving DecidableEq

/-- Embedding of `self.get_params(False)` as used by `ML_model.save`
(line 949): the current values of the five constructor parameters. -/
def get_params {E R Sc : Type} (m : MLModel E R Sc) : MLConfig E :=
  { estimator := m.estimator, path := m.path, seed := m.seed,
    verbose := m.verbose, pos_label := m.pos_label }

/-- Embedding of `ML_model.from_config` (lines 94-98):
`ML_model(**config)`.  The stored estimator is an object, so it enters
the constructor through the object branch. -/
def from_config {E : Type} (R Sc : Type)
    (pipe_main : String → E) (hasEstimatorType : E → Bool) (folderPipes : List E)
    (c : MLConfig E) : Except String (MLModel E R Sc) :=
  ML_model_init R Sc pipe_main hasEstimatorType folderPipes
    (some (.obj c.estimator)) c.path c.seed c.verbose c.pos_label

/-! ### Grid search and orchestration (lw_model.py, lines 537-572, 796-938) -/

/-- Observable side effects of the orchestration methods, used to state
the order of the steps of `run_analysis` and `run_sensitivity`. -/
inductive Event
  | write (tag : String)
  | gridSearchStep
  | plotGrid
  | sensitivity
  | trainStep
  | testStep
  | saveModel
  | shutTemp
deriving DecidableEq

/-- Model of a fitted `sklearn.model_selection.GridSearchCV` object:
the attributes read by `grid_searchcv` after `grid.fit`. -/
structure GridSearchOut (E C : Type) where
  best_estimator_ : E
  cv_results_ : C

/-- Embedding of `ML_model.grid_searchcv` (lines 537-572).
`gridSearchCV` models the scikit-learn search: it receives the current
estimator, the resolved scorer dict, the data, the parameter grid and
the `cv` / `refit` / `return_train_score` / `n_jobs` arguments, runs
`grid.fit(X, y, **fit_params)` and exposes `best_estimator_` and
`cv_results_` (`fit_params` is absorbed into the abstract search).
`pd_DataFrame` models the `pd.DataFrame(grid.cv_results_)` conversion.
The method updates `self.estimator` and `self.gridcv_results` and
returns the results DataFrame. -/
def grid_searchcv {E R Sc S X Y G C : Type}
    (gridSearchCV : E → (String → Option S) → X → Y → G → Int → String → Bool →
      Int → GridSearchOut E C)
    (pd_DataFrame : C → R)
    (custom : String → Option S) (sk_resolve : String → S)
    (m : MLModel E R Sc) (x : X) (y : Y) (param_grid : G)
    (scoring : ScoringArg) (cv : Int) (refit : String) (return_train_score : Bool)
    (n_jobs : Int) : MLModel E R Sc × R :=
  let scorer := _get_scorer custom sk_resolve scoring
  let grid := gridSearchCV m.estimator scorer x y param_grid cv refit
    return_train_score n_jobs
  let cv_results := pd_DataFrame grid.cv_results_
  ({ m with estimator := grid.best_estimator_, gridcv_results := some cv_results },
   cv_results)

/-- The `param_grid` argument of `run_sensitivity`: `-1` (use the
predefined grids from `pipe_grid`) or an explicit list of grids. -/
inductive ParamGridArg (G : Type)
  | preset
  | given (l : List G)

/-- The parameter grid `run_sensitivity` actually searches (lines
832-838): when `param_grid is -1` the predefined grids of every pipeline
step found by `pipe_grid` are collected in step order, otherwise the
given grids are used. -/
def resolve_param_grid {G : Type} (pipe_grid : String → Option (List G))
    (steps : List String) : ParamGridArg G → List G
  | .preset =>
      steps.foldl (fun acc k =>
        match pipe_grid k with
        | some g => acc ++ g
        | none => acc) []
  | .given l => l

/-- Embedding of `ML_model.run_sensitivity` (lines 796-864) for an
explicitly passed `train_set`.  `pipe_grid` models
`lw_mlearn.lw_preprocess.pipe_grid` (repository code not among the
sources here, kept abstract) and `named_steps` lists the pipeline step
names of the estimator.  The traindata write, the per-grid
`grid_searchcv` + `plot_gridcv` loop (each search runs `grid_searchcv`
with its default `cv = 3`), the results write, `save` and the temp
folder shutdown are recorded as events; when the resolved grid is empty
the method prints and returns before any search.  The memory-cache path
assignment (lines 844-846) is file-path plumbing and is omitted. -/
def run_sensitivity {E R Sc S X Y G C : Type}
    (pipe_grid : String → Option (List G)) (named_steps : E → List String)
    (gridSearchCV : E → (String → Option S) → X → Y → G → Int → String → Bool →
      Int → GridSearchOut E C)
    (pd_DataFrame : C → R)
    (custom : String → Option S) (sk_resolve : String → S)
    (m : MLModel E R Sc) (train_set : X × Y)
    (param_grid : ParamGridArg G) (refit : String) (scoring : ScoringArg)
    (n_jobs : Int) : MLModel E R Sc × List Event :=
  let ev0 : List Event := [.write "traindata"]
  let pg := resolve_param_grid pipe_grid (named_steps m.estimator) param_grid
  if pg.length = 0 then
    (m, ev0)
  else
    let r := pg.foldl (fun (acc : MLModel E R Sc × List Event) grid =>
      let g := grid_searchcv gridSearchCV pd_DataFrame custom sk_resolve acc.1
        train_set.1 train_set.2 grid scoring 3 refit true n_jobs
      (g.1, acc.2 ++ [.gridSearchStep, .plotGrid])) (m, ev0)
    (r.1, r.2 ++ [.write "GridcvResults", .saveModel, .shutTemp])

/-- Embedding of `ML_model.run_analysis` (lines 866-938).  The
sub-methods are abstracted as state transformers: `sens` models
`run_sensitivity` (returns None, may update the estimator), `trainF`
models `run_train` (returns the averaged train score) and `testF` models
`run_test` (returns the averaged test score).  The method runs
`run_sensitivity` when `grid_search` is true, then, when `train_test` is
true, runs `run_train` storing its score in `self.trainscore` and, when
additionally `test_set` is not None, runs `run_test` storing its score
in `self.testscore`; finally it saves the model and returns the
instance.  The second component records the invocation order. -/
def run_analysis {E R Sc X Y T : Type}
    (sens : MLModel E R Sc → X × Y → MLModel E R Sc)
    (trainF : MLModel E R Sc → X × Y → MLModel E R Sc × Sc)
    (testF : MLModel E R Sc → T → MLModel E R Sc × Sc)
    (m : MLModel E R Sc) (train_set : X × Y) (test_set : Option T)
    (grid_search train_test : Bool) : MLModel E R Sc × List Event :=
  let s1 := if grid_search then (sens m train_set, [Event.sensitivity])
            else (m, ([] : List Event))
  let s2 :=
    if train_test then
      let tr := trainF s1.1 train_set
      let mT := { tr.1 with trainscore := some tr.2 }
      match test_set with
      | none => (mT, [Event.trainStep])
      | some ts =>
          let te := testF mT ts
          ({ te.1 with testscore := some te.2 }, [Event.trainStep, Event.testStep])
    else (s1.1, ([] : List Event))
  (s2.1, s1.2 ++ s2.2 ++ [Event.saveModel])

/-! ### Continuous predictions and plotting (lw_model.py, lines 143-169, 202-453) -/

/-- A prediction array: one-dimensional or two-dimensional (rows of
per-class values), distinguishing the `np.ndim(y_pre) > 1` branch. -/
inductive Pred (P : Type)
  | one (v : List P)
  | two (rows : List (List P))

/-- Model of a (possibly fitted) scikit-learn estimator as seen by the
prediction and plotting methods: whether `check_is_fitted` succeeds, the
`classes_` attribute, the optional `bins` attribute set by `plot_lift`,
and the optional `decision_function` / `predict_proba` methods
(`hasattr` is `Option.isSome`). -/
structure PredEstimator (XT P B : Type) where
  fitted : Bool
  classes_ : List Int
  bins : Option B
  decision_function : Option (XT → Pred P)
  predict_proba : Option (XT → Pred P)

/-- Embedding of `ML_model._check_fitted` (lines 143-149):
`validation.check_is_fitted` raises when the estimator is unfitted. -/
def check_fitted {XT P B : Type} (e : PredEstimator XT P B) : Except String Unit :=
  if e.fitted then .ok () else .error "estimator is not fitted"

/-- The column selection `y_pre[:, pos_label]` of `_pre_continueous`
(lines 167-168), applied only when the prediction has more than one
dimension.  Out-of-range columns are totalised with `default`; numpy
would raise there, and all uses below stay in range. -/
def col_select {P : Type} [Inhabited P] (pos_label : Nat) : Pred P → List P
  | .one v => v
  | .two rows => rows.map (fun r => r.getD pos_label default)

/-- Embedding of `ML_model._pre_continueous` (lines 151-169): reject
estimators with more than two classes, then call `decision_function`
when the estimator has that attribute, otherwise `predict_proba` when it
has that one, otherwise raise; finally select column `pos_label` when
the prediction is more than one-dimensional. -/
def _pre_continueous {XT P B : Type} [Inhabited P] (pos_label : Nat)
    (e : PredEstimator XT P B) (x : XT) : Except String (List P) :=
  if e.classes_.length > 2 then
    .error " estimator should only output binary classes..."
  else
    match e.decision_function with
    | some f => .ok (col_select pos_label (f x))
    | none =>
        match e.predict_proba with
        | some f => .ok (col_select pos_label (f x))
        | none => .error "estimator have no continuous predictions"

/-- Run an effectful step over each list element, stopping at the first
error: the shape of the Python `for` loops below. -/
def eachM {α β : Type} (f : α → Except String β) : List α → Except String (List β)
  | [] => .ok []
  | x :: xs =>
      match f x with
      | .error s => .error s
      | .ok y =>
          match eachM f xs with
          | .error s => .error s
          | .ok ys => .ok (y :: ys)

/-- Embedding of `ML_model.plot_lift` (lines 370-453): check the
estimator is fitted, compute continuous predictions, then either use
`self.estimator.bins` (returning None with a message when absent) or the
passed `bins` / `q` / `max_leaf_nodes`; `plotter_lift_curve` (from
`lw_mlearn.lw_preprocess`, not among the sources here) is abstract and
returns the bin edges and the plotted data, to which
`self.estimator.bins` is then updated.  Figure handling is omitted. -/
def plot_lift {XT P B D : Type} [Inhabited P]
    (plotter_lift_curve : List P → List Int → Option B → Option Nat → Option Nat →
      B × D)
    (pos_label : Nat) (e : PredEstimator XT P B) (x : XT) (y : List Int)
    (q : Option Nat) (bins : Option B) (max_leaf_nodes : Option Nat)
    (use_self_bins : Bool) : Except String (Option (B × D)) :=
  match check_fitted e with
  | .error s => .error s
  | .ok _ =>
      match _pre_continueous pos_label e x with
      | .error s => .error s
      | .ok y_pre =>
          if use_self_bins then
            match e.bins with
            | some b => .ok (some (plotter_lift_curve y_pre y (some b) none none))
            | none => .ok none
          else
            .ok (some (plotter_lift_curve y_pre y bins q max_leaf_nodes))

/-- Embedding of the `cv = 1` path of `ML_model.plot_auc_test` (lines
202-289), on the flattened lists of test sets: check the estimator is
fitted and the lists consistent, then for each pair compute continuous
predictions, the ROC curve and its AUC (`roc_curve` and `auc` are
scikit-learn, abstract).  The `cv > 1` branch only re-arranges the data
through `_split_cv` and re-enters this path with `cv = 1`; plotting and
the returned mean/std aggregation are omitted, the per-set AUC list is
returned. -/
def plot_auc_test {XT P RocT A B : Type} [Inhabited P]
    (roc_curve : List Int → List P → RocT) (aucF : RocT → A)
    (pos_label : Nat) (e : PredEstimator XT P B)
    (xs : List XT) (ys : List (List Int)) : Except String (List A) :=
  match check_fitted e with
  | .error s => .error s
  | .ok _ =>
      if xs.length = ys.length then
        eachM (fun xy =>
          match _pre_continueous pos_label e xy.1 with
          | .error s => .error s
          | .ok y_pre => .ok (aucF (roc_curve xy.2 y_pre))) (xs.zip ys)
      else
        .error "Found input variables with inconsistent numbers of samples"

/-- Embedding of the fold loop of `ML_model.plot_auc_traincv` (lines
291-368) over the splits produced by `_split_cv` (the heterogeneous
pandas arrays of the Python call are modelled by passing the computed
`((X_train, X_test), (y_train, y_test))` folds): for each fold a copy of
the estimator is fitted on the train part (`fitFn` models `clf.fit`) and
continuous predictions on the test part feed `roc_curve` / `auc`
(abstract).  Note the source performs no `_check_fitted` here.  The
interpolation, plotting and mean/std aggregation are omitted, the
per-fold AUC list is returned. -/
def plot_auc_traincv {Rw P RocT A B : Type} [Inhabited P]
    (fitFn : PredEstimator (List Rw) P B → List Rw → List Int →
      PredEstimator (List Rw) P B)
    (roc_curve : List Int → List P → RocT) (aucF : RocT → A)
    (pos_label : Nat) (e : PredEstimator (List Rw) P B)
    (data_splits : List ((List Rw × List Rw) × (List Int × List Int))) :
    Except String (List A) :=
  eachM (fun fold =>
    let clf := fitFn e fold.1.1 fold.2.1
    match _pre_continueous pos_label clf fold.1.2 with
    | .error s => .error s
    | .ok y_pre => .ok (aucF (roc_curve fold.2.2 y_pre))) data_splits

/-! ### Concrete instantiations used for witnesses and counterexamples -/

/-- A custom-scorer dict containing the repository's `KS` scorer (scorers
are modelled as numbers). -/
def custom0 : String → Option Nat :=
  fun n => if n = "KS" then some 0 else none

/-- A scikit-learn scorer resolution distinct from the custom `KS`
scorer. -/
def skres0 : String → Nat := fun _ => 1

/-- A trivial `run_sensitivity` stand-in for `run_analysis` witnesses. -/
def sens0 : MLModel Nat Nat Nat → Nat × Nat → MLModel Nat Nat Nat :=
  fun m _ => m

/-- A trivial `run_train` stand-in returning score 7. -/
def train0 : MLModel Nat Nat Nat → Nat × Nat → MLModel Nat Nat Nat × Nat :=
  fun m _ => (m, 7)

/-- A trivial `run_test` stand-in returning score 9; it leaves
`trainscore` untouched, as the real `run_test` does. -/
def test0 : MLModel Nat Nat Nat → Nat → MLModel Nat Nat Nat × Nat :=
  fun m _ => (m, 9)

/-- A concrete `ML_model` state. -/
def m0 : MLModel Nat Nat Nat :=
  { estimator := 0, path := "model", seed := 0, verbose := 1, pos_label := 1,
    gridcv_results := none, trainscore := none, testscore := none }

/-- A concrete `pipe_main` stand-in over Boolean estimators. -/
def pm1 : String → Bool := fun _ => true

/-- A concrete `ML_model` state over Boolean estimators, whose estimator
has the `_estimator_type` attribute. -/
def mB : MLModel Bool Nat Nat :=
  { estimator := true, path := "model", seed := 0, verbose := 1, pos_label := 1,
    gridcv_results := some 4, trainscore := some 5, testscore := none }

/-- A two-dimensional continuous prediction used for the
`_pre_continueous` witness. -/
def f2 : List Nat → Pred Nat := fun _ => .two [[3, 4], [5, 6]]

/-- A fitted binary estimator exposing `decision_function`. -/
def e2 : PredEstimator (List Nat) Nat Nat :=
  { fitted := true, classes_ := [0, 1], bins := none,
    decision_function := some f2, predict_proba := none }

/-- A fitted estimator with three classes, for the binary-only claims. -/
def e3 : PredEstimator (List Nat) Nat Nat :=
  { fitted := true, classes_ := [0, 1, 2], bins := none,
    decision_function := some (fun _ => .one [5]), predict_proba := none }

/-- A trivial `plotter_lift_curve` stand-in. -/
def plotter0 : List Nat → List Int → Option Nat → Option Nat → Option Nat →
    Nat × Nat :=
  fun _ _ _ _ _ => (0, 0)

/-- A trivial `roc_curve` stand-in. -/
def roc0 : List Int → List Nat → Nat := fun _ _ => 0

/-- A trivial `auc` stand-in. -/
def auc0 : Nat → Nat := fun t => t

/-- A trivial `fit` stand-in that keeps the three-class estimator (fold
labels cover all classes). -/
def fit0 : PredEstimator (List Nat) Nat Nat → List Nat → List Int →
    PredEstimator (List Nat) Nat Nat :=
  fun _ _ _ => e3

/-- A trivial scikit-learn grid search stand-in. -/
def gs0 : Nat → (String → Option Nat) → Nat → Nat → Nat → Int → String → Bool →
    Int → GridSearchOut Nat Nat :=
  fun _ _ _ _ _ _ _ _ _ => { best_estimator_ := 3, cv_results_ := 8 }

/-- A trivial `pd.DataFrame` conversion stand-in. -/
def df0 : Nat → Nat := fun c => c

/-- A `pipe_grid` stand-in with no predefined grid for any step. -/
def pg0 : String → Option (List Nat) := fun _ => none

/-- A `named_steps` stand-in with a single pipeline step. -/
def steps0 : Nat → List String := fun _ => ["clean"]

/-! ### Theorems -/

/-- C1 counterexample: at `cv == 1` the folds returned by `_split_cv` are
not the ones produced by the cross-validator obtained from `check_cv`
applied via `safe_indexing`: the code short-circuits and returns the
whole un-split arrays as one fold without consulting scikit-learn (whose
`check_cv(1)` builds a KFold with `n_splits = 1`, which raises). -/
theorem split_cv_cv1_not_delegated :
    _split_cv skZero [[5]] none none 1 none ≠
      split_cv_delegated skZero [[5]] none none 1 none := by
  intro h
  have h1 : _split_cv skZero [[5]] none none 1 none = .ok [[([5], [5])]] := rfl
  have h2 : split_cv_delegated skZero [[5]] none none 1 none = .ok [] := rfl
  rw [h1, h2] at h
  exact absurd (Except.ok.inj h) (by decide)

/-- C1 (amended): for every call to `_split_cv` with `cv ≠ 1` on one or
more arrays, the splitting is delegated to scikit-learn: the folds
returned are exactly those produced by the cross-validator obtained from
`check_cv` (stratified on `y` when `y` is given, with `random_state` set
to the given seed when the validator has one), applied via
`safe_indexing` to the index-reset arrays. -/
theorem split_cv_delegates_check_cv_of_cv_ne_one {α : Type} [Inhabited α]
    (sk : SkSplit α) (arrays : List (List α)) (y : Option (List α))
    (groups : Option (List Nat)) (cv : Int) (rs : Option Int) (h : cv ≠ 1) :
    _split_cv sk arrays y groups cv rs = split_cv_delegated sk arrays y groups cv rs := by
  unfold _split_cv split_cv_delegated
  simp [h]

/-- Witness for the amended C1 at a concrete input with `cv = 2`. -/
theorem split_cv_delegates_witness :
    (2 : Int) ≠ 1 ∧
      _split_cv skZero [[5]] none none 2 none =
        split_cv_delegated skZero [[5]] none none 2 none :=
  ⟨by decide, split_cv_delegates_check_cv_of_cv_ne_one skZero [[5]] none none 2 none
    (by decide)⟩

/-- C8: for every call to `_split_cv` with `cv == 1` and at least one
array of consistent length, the result is a single fold in which every
array (with `y` appended last when given) appears un-split as both the
train and the test part. -/
theorem split_cv_one_single_fold {α : Type} [Inhabited α] (sk : SkSplit α)
    (arrays : List (List α)) (y : Option (List α)) (groups : Option (List Nat))
    (rs : Option Int) (h1 : arrays ≠ [])
    (h2 : allSameLength (sampleCounts arrays y groups) = true) :
    _split_cv sk arrays y groups 1 rs =
      .ok [(appendY arrays y).map (fun a => (a, a))] := by
  have hl : ¬ arrays.length = 0 := by
    simpa [List.length_eq_zero] using h1
  simp [_split_cv, hl, h2]

/-- Witness for C8 at a concrete input. -/
theorem split_cv_one_single_fold_witness :
    ([[5]] : List (List Nat)) ≠ [] ∧
      allSameLength (sampleCounts [[5]] (some [9]) none) = true ∧
      _split_cv skZero [[5]] (some [9]) none 1 none =
        .ok [(appendY [[5]] (some [9])).map (fun a => (a, a))] :=
  ⟨by decide, by decide,
   split_cv_one_single_fold skZero [[5]] (some [9]) none none (by decide) (by decide)⟩

/-- Updating with a pointwise-resolved dict: the last binding for each
name wins, and every name in the update list maps to its resolution. -/
theorem dupdate_map_eval {S : Type} (d : String → Option S) (r : String → S)
    (names : List String) (n : String) :
    dupdate d (_check_multimetric_scoring r names) n =
      if n ∈ names then some (r n) else d n := by
  induction names generalizing d with
  | nil => simp [dupdate, _check_multimetric_scoring]
  | cons a l ih =>
      have hstep : dupdate d (_check_multimetric_scoring r (a :: l)) n =
          dupdate (dinsert d a (r a)) (_check_multimetric_scoring r l) n := rfl
      rw [hstep, ih]
      by_cases hl : n ∈ l
      · simp [hl]
      · by_cases ha : n = a
        · subst ha
          simp [hl, dinsert]
        · simp [hl, ha, dinsert]

/-- The result dict built by the loop of `_get_scorer`: a name maps to
its custom scorer when it was processed and is custom, otherwise the
initial dict is unchanged. -/
theorem scorerLoop_fst {S : Type} (custom : String → Option S) (l : List String)
    (d : String → Option S) (sks : List String) (n : String) :
    (scorerLoop custom (d, sks) l).1 n =
      if n ∈ l ∧ (custom n).isSome then custom n else d n := by
  induction l generalizing d sks with
  | nil => simp [scorerLoop]
  | cons i l ih =>
      cases hi : custom i with
      | some c =>
          have hstep : scorerLoop custom (d, sks) (i :: l) =
              scorerLoop custom (dinsert d i c, sks) l := by
            simp [scorerLoop, hi]
          rw [hstep, ih]
          by_cases hl : n ∈ l ∧ (custom n).isSome
          · simp [hl, List.mem_cons, hl.1, hl.2]
          · by_cases hn : n = i
            · subst hn
              simp [hl, dinsert, hi]
            · simp only [hl, if_false, dinsert, if_neg hn]
              simp [hn, hl]
      | none =>
          have hstep : scorerLoop custom (d, sks) (i :: l) =
              scorerLoop custom (d, sks ++ [i]) l := by
            simp [scorerLoop, hi]
          rw [hstep, ih]
          by_cases hn : n = i
          · subst hn
            simp [hi]
          · simp [hn]

/-- The `sk_scoring` list built by the loop of `_get_scorer`: exactly the
processed names without a custom scorer, in order. -/
theorem scorerLoop_snd {S : Type} (custom : String → Option S) (l : List String)
    (d : String → Option S) (sks : List String) :
    (scorerLoop custom (d, sks) l).2 = sks ++ l.filter (fun i => (custom i).isNone) := by
  induction l generalizing d sks with
  | nil => simp [scorerLoop]
  | cons i l ih =>
      cases hi : custom i with
      | some c =>
          have hstep : scorerLoop custom (d, sks) (i :: l) =
              scorerLoop custom (dinsert d i c, sks) l := by
            simp [scorerLoop, hi]
          rw [hstep, ih]
          simp [List.filter_cons, hi]
      | none =>
          have hstep : scorerLoop custom (d, sks) (i :: l) =
              scorerLoop custom (d, sks ++ [i]) l := by
            simp [scorerLoop, hi]
          rw [hstep, ih]
          simp [List.filter_cons, hi]

/-- Full characterisation of `_get_scorer`: a requested name maps to its
custom scorer when the custom dict has one, and to the scikit-learn
resolution otherwise; unrequested names are absent. -/
theorem get_scorer_eval {S : Type} (custom : String → Option S) (r : String → S)
    (scoring : ScoringArg) (n : String) :
    _get_scorer custom r scoring n =
      if n ∈ get_flat_list scoring then some ((custom n).getD (r n)) else none := by
  unfold _get_scorer
  rw [scorerLoop_snd]
  simp only [List.nil_append]
  by_cases hpos : (List.filter (fun i => (custom i).isNone) (get_flat_list scoring)).length > 0
  · rw [if_pos hpos, dupdate_map_eval, scorerLoop_fst]
    by_cases hf : n ∈ List.filter (fun i => (custom i).isNone) (get_flat_list scoring)
    · have hmem := List.mem_filter.mp hf
      have hnone : custom n = none := Option.isNone_iff_eq_none.mp (by simpa using hmem.2)
      simp [hf, hmem.1, hnone]
    · by_cases hm : n ∈ get_flat_list scoring
      · have hsome : (custom n).isSome := by
          by_contra hns
          exact hf (List.mem_filter.mpr ⟨hm, by simpa using Option.not_isSome_iff_eq_none.mp hns⟩)
        rcases Option.isSome_iff_exists.mp hsome with ⟨c, hc⟩
        simp [hf, hm, hsome, hc]
      · simp [hf, hm]
  · rw [if_neg hpos, scorerLoop_fst]
    have hfe : List.filter (fun i => (custom i).isNone) (get_flat_list scoring) = [] := by
      rcases List.eq_nil_or_concat (List.filter (fun i => (custom i).isNone) (get_flat_list scoring)) with h | ⟨l2, a, h⟩
      · exact h
      · exact absurd (by simp [h]) hpos
    by_cases hm : n ∈ get_flat_list scoring
    · have hsome : (custom n).isSome := by
        by_contra hns
        have : n ∈ List.filter (fun i => (custom i).isNone) (get_flat_list scoring) :=
          List.mem_filter.mpr ⟨hm, by simpa using Option.not_isSome_iff_eq_none.mp hns⟩
        simp [hfe] at this
      rcases Option.isSome_iff_exists.mp hsome with ⟨c, hc⟩
      simp [hm, hsome, hc]
    · simp [hm]

/-- C2 counterexample: the repository default scoring name `KS` is
resolved from the custom-scorer dict of `lw_mlearn.lw_preprocess`, not
by scikit-learn: `_get_scorer` maps it to the custom scorer, which
differs from the scorer scikit-learn would resolve for that name. -/
theorem get_scorer_custom_not_sklearn :
    _get_scorer custom0 skres0 (.single "KS") "KS" ≠ some (skres0 "KS") := by
  decide

/-- C2 (amended): for every scoring specification (a name or list of
names), `_get_scorer` returns a dict that maps every requested name not
found in the repository's custom-scorer dict to the scorer scikit-learn
resolves for that name, and every requested custom name to the
repository's custom scorer. -/
theorem get_scorer_resolution {S : Type} (custom : String → Option S)
    (sk_resolve : String → S) (scoring : ScoringArg) (n : String)
    (hn : n ∈ get_flat_list scoring) :
    ((custom n).isSome → _get_scorer custom sk_resolve scoring n = custom n) ∧
    ((custom n).isNone → _get_scorer custom sk_resolve scoring n = some (sk_resolve n)) := by
  constructor
  · intro h
    rcases Option.isSome_iff_exists.mp h with ⟨c, hc⟩
    rw [get_scorer_eval, if_pos hn, hc]
    rfl
  · intro h
    rw [get_scorer_eval, if_pos hn, Option.isNone_iff_eq_none.mp h]
    rfl

/-- Witness for the amended C2 at a concrete input: in the default
scoring list, `roc_auc` is not custom and resolves through scikit-learn,
`KS` is custom and resolves to the custom scorer. -/
theorem get_scorer_resolution_witness :
    ("roc_auc" ∈ get_flat_list (.many ["roc_auc", "KS"])) ∧
      (custom0 "roc_auc").isNone = true ∧
      ("KS" ∈ get_flat_list (.many ["roc_auc", "KS"])) ∧
      (custom0 "KS").isSome = true ∧
      _get_scorer custom0 skres0 (.many ["roc_auc", "KS"]) "roc_auc" =
        some (skres0 "roc_auc") ∧
      _get_scorer custom0 skres0 (.many ["roc_auc", "KS"]) "KS" = custom0 "KS" :=
  ⟨by decide, by decide, by decide, by decide,
   (get_scorer_resolution custom0 skres0 (.many ["roc_auc", "KS"]) "roc_auc"
     (by decide)).2 (by decide),
   (get_scorer_resolution custom0 skres0 (.many ["roc_auc", "KS"]) "KS"
     (by decide)).1 (by decide)⟩

/-- C3: every call to `grid_searchcv` delegates the hyperparameter search
to scikit-learn's `GridSearchCV` over the current estimator; afterwards
`self.estimator` is the best estimator found by that search,
`self.gridcv_results` is the search's cv results as a DataFrame, and
that same DataFrame is the return value. -/
theorem grid_searchcv_delegates_and_updates {E R Sc S X Y G C : Type}
    (gridSearchCV : E → (String → Option S) → X → Y → G → Int → String → Bool →
      Int → GridSearchOut E C)
    (pd_DataFrame : C → R) (custom : String → Option S) (sk_resolve : String → S)
    (m : MLModel E R Sc) (x : X) (y : Y) (param_grid : G) (scoring : ScoringArg)
    (cv : Int) (refit : String) (rts : Bool) (n_jobs : Int) :
    (grid_searchcv gridSearchCV pd_DataFrame custom sk_resolve m x y param_grid
        scoring cv refit rts n_jobs).1.estimator =
      (gridSearchCV m.estimator (_get_scorer custom sk_resolve scoring) x y
        param_grid cv refit rts n_jobs).best_estimator_ ∧
    (grid_searchcv gridSearchCV pd_DataFrame custom sk_resolve m x y param_grid
        scoring cv refit rts n_jobs).1.gridcv_results =
      some (pd_DataFrame (gridSearchCV m.estimator
        (_get_scorer custom sk_resolve scoring) x y param_grid cv refit rts
        n_jobs).cv_results_) ∧
    (grid_searchcv gridSearchCV pd_DataFrame custom sk_resolve m x y param_grid
        scoring cv refit rts n_jobs).2 =
      pd_DataFrame (gridSearchCV m.estimator
        (_get_scorer custom sk_resolve scoring) x y param_grid cv refit rts
        n_jobs).cv_results_ ∧
    (grid_searchcv gridSearchCV pd_DataFrame custom sk_resolve m x y param_grid
        scoring cv refit rts n_jobs).1.gridcv_results =
      some ((grid_searchcv gridSearchCV pd_DataFrame custom sk_resolve m x y
        param_grid scoring cv refit rts n_jobs).2) :=
  ⟨rfl, rfl, rfl, rfl⟩

/-- C4: `run_analysis` runs its steps in the fixed order sensitivity
(exactly when `grid_search`), train (exactly when `train_test`, with the
averaged score stored in `self.trainscore`), test (exactly when
`train_test` and `test_set` is given, with the averaged score stored in
`self.testscore`), then save; the returned model is the updated
instance.  The hypothesis that `run_test` leaves `trainscore` untouched
holds for the real `run_test`, which never assigns that attribute. -/
theorem run_analysis_order_and_scores {E R Sc X Y T : Type}
    (sens : MLModel E R Sc → X × Y → MLModel E R Sc)
    (trainF : MLModel E R Sc → X × Y → MLModel E R Sc × Sc)
    (testF : MLModel E R Sc → T → MLModel E R Sc × Sc)
    (m : MLModel E R Sc) (train_set : X × Y) (test_set : Option T)
    (grid_search train_test : Bool)
    (hpres : ∀ mm ts, ((testF mm ts).1).trainscore = mm.trainscore)
    (m1 : MLModel E R Sc) (hm1 : m1 = if grid_search then sens m train_set else m) :
    (run_analysis sens trainF testF m train_set test_set grid_search train_test).2 =
        (if grid_search then [Event.sensitivity] else []) ++
        (if train_test then [Event.trainStep] else []) ++
        (if train_test ∧ test_set.isSome then [Event.testStep] else []) ++
        [Event.saveModel] ∧
    (train_test = true →
      (run_analysis sens trainF testF m train_set test_set grid_search
          train_test).1.trainscore = some (trainF m1 train_set).2) ∧
    (∀ ts, test_set = some ts → train_test = true →
      (run_analysis sens trainF testF m train_set test_set grid_search
          train_test).1.testscore =
        some (testF { (trainF m1 train_set).1 with
          trainscore := some (trainF m1 train_set).2 } ts).2) := by
  subst hm1
  cases grid_search <;> cases train_test <;> cases test_set <;>
    simp [run_analysis, hpres]

/-- Witness for C4 at a concrete input: grid search on, train and test
both run, scores 7 and 9 stored, steps in order. -/
theorem run_analysis_order_and_scores_witness :
    (run_analysis sens0 train0 test0 m0 (1, 2) (some 3) true true).2 =
      [Event.sensitivity, Event.trainStep, Event.testStep, Event.saveModel] ∧
    (run_analysis sens0 train0 test0 m0 (1, 2) (some 3) true true).1.trainscore =
      some 7 ∧
    (run_analysis sens0 train0 test0 m0 (1, 2) (some 3) true true).1.testscore =
      some 9 := by
  have h := run_analysis_order_and_scores sens0 train0 test0 m0 (1, 2) (some 3)
    true true (fun mm ts => rfl) m0 rfl
  refine ⟨by simpa using h.1, ?_, ?_⟩
  · have := h.2.1 rfl
    simpa [train0] using this
  · have := h.2.2 3 rfl rfl
    simpa [train0, test0] using this

/-- C5: constructing `ML_model` with a non-None estimator succeeds
exactly when the argument is a string (resolved through `pipe_main`) or
an object carrying the `_estimator_type` attribute that marks a
scikit-learn-compatible estimator; any other object raises
`ValueError`. -/
theorem init_estimator_validation {E : Type} (R Sc : Type)
    (pipe_main : String → E) (hET : E → Bool) (folderPipes : List E)
    (path : String) (seed verbose : Int) (pos_label : Nat) :
    (∀ s : String, ∃ m : MLModel E R Sc,
      ML_model_init R Sc pipe_main hET folderPipes (some (.str s)) path seed
        verbose pos_label = .ok m ∧ m.estimator = pipe_main s) ∧
    (∀ e : E, hET e = true → ∃ m : MLModel E R Sc,
      ML_model_init R Sc pipe_main hET folderPipes (some (.obj e)) path seed
        verbose pos_label = .ok m ∧ m.estimator = e) ∧
    (∀ e : E, hET e = false →
      ML_model_init R Sc pipe_main hET folderPipes (some (.obj e)) path seed
        verbose pos_label = .error "invalid estimator input type") := by
  refine ⟨fun s => ⟨_, rfl, rfl⟩, fun e he => ?_, fun e he => ?_⟩
  · exact ⟨{ estimator := e, path := path, seed := seed, verbose := verbose,
               pos_label := pos_label, gridcv_results := none, trainscore := none,
               testscore := none }, by simp [ML_model_init, he], rfl⟩
  · simp [ML_model_init, he]

/-- Witness for C5 at concrete inputs: an object with the
`_estimator_type` attribute is accepted, one without it raises. -/
theorem init_estimator_validation_witness :
    (∃ m : MLModel Bool Nat Nat,
      ML_model_init Nat Nat pm1 (fun e => e) [] (some (.obj true)) "model" 0 1 1 =
        .ok m ∧ m.estimator = true) ∧
    ML_model_init Nat Nat pm1 (fun e => e) [] (some (.obj false)) "model" 0 1 1 =
      .error "invalid estimator input type" :=
  ⟨(init_estimator_validation Nat Nat pm1 (fun e => e) [] "model" 0 1 1).2.1 true rfl,
   (init_estimator_validation Nat Nat pm1 (fun e => e) [] "model" 0 1 1).2.2 false rfl⟩

/-- C9: for every `ML_model` whose stored estimator carries the
`_estimator_type` attribute (true of the pipelines the constructor
stores), `from_config (m.get_params(deep=False))` reconstructs an
`ML_model` whose five constructor parameters equal those of `m`. -/
theorem from_config_roundtrip {E R Sc : Type}
    (pipe_main : String → E) (hET : E → Bool) (folderPipes : List E)
    (m : MLModel E R Sc) (h : hET m.estimator = true) :
    ∃ m2 : MLModel E R Sc,
      from_config R Sc pipe_main hET folderPipes (get_params m) = .ok m2 ∧
      m2.estimator = m.estimator ∧ m2.path = m.path ∧ m2.seed = m.seed ∧
      m2.verbose = m.verbose ∧ m2.pos_label = m.pos_label := by
  refine ⟨{ estimator := m.estimator, path := m.path, seed := m.seed,
              verbose := m.verbose, pos_label := m.pos_label,
              gridcv_results := none, trainscore := none,
              testscore := none }, ?_, rfl, rfl, rfl, rfl, rfl⟩
  simp [from_config, get_params, ML_model_init, h]

/-- Witness for C9 at a concrete input. -/
theorem from_config_roundtrip_witness :
    ((fun e => e) mB.estimator = true) ∧
    (∃ m2 : MLModel Bool Nat Nat,
      from_config Nat Nat pm1 (fun e => e) [] (get_params mB) = .ok m2 ∧
      m2.estimator = mB.estimator ∧ m2.path = mB.path ∧ m2.seed = mB.seed ∧
      m2.verbose = mB.verbose ∧ m2.pos_label = mB.pos_label) :=
  ⟨rfl, from_config_roundtrip pm1 (fun e => e) [] mB rfl⟩

/-- C7: for every fitted binary estimator, `_pre_continueous` branches on
the estimator's attributes: it calls `decision_function` when present,
otherwise `predict_proba` when present, and otherwise raises
`ValueError`; and whenever the prediction has more than one dimension,
the column at index `pos_label` is returned (`col_select`). -/
theorem pre_continueous_branching {XT P B : Type} [Inhabited P]
    (pos_label : Nat) (e : PredEstimator XT P B) (x : XT)
    (hc : e.classes_.length ≤ 2) :
    (∀ f, e.decision_function = some f →
      _pre_continueous pos_label e x = .ok (col_select pos_label (f x))) ∧
    (e.decision_function = none → ∀ g, e.predict_proba = some g →
      _pre_continueous pos_label e x = .ok (col_select pos_label (g x))) ∧
    (e.decision_function = none → e.predict_proba = none →
      _pre_continueous pos_label e x =
        .error "estimator have no continuous predictions") ∧
    (∀ rows : List (List P), col_select pos_label (Pred.two rows) =
      rows.map (fun r => r.getD pos_label default)) ∧
    (∀ v : List P, col_select pos_label (Pred.one v) = v) := by
  have hn : ¬ e.classes_.length > 2 := Nat.not_lt.mpr hc
  refine ⟨fun f hf => ?_, fun hd g hg => ?_, fun hd hp => ?_,
          fun rows => rfl, fun v => rfl⟩
  · simp [_pre_continueous, hn, hf]
  · simp [_pre_continueous, hn, hd, hg]
  · simp [_pre_continueous, hn, hd, hp]

/-- Witness for C7 at a concrete input: a binary estimator with a
two-dimensional `decision_function`; `pos_label = 1` selects the second
column. -/
theorem pre_continueous_branching_witness :
    e2.classes_.length ≤ 2 ∧
      e2.decision_function = some f2 ∧
      _pre_continueous 1 e2 [0] = .ok (col_select 1 (f2 [0])) ∧
      col_select 1 (f2 [0]) = [4, 6] :=
  ⟨by decide, rfl,
   (pre_continueous_branching 1 e2 [0] (by decide)).1 f2 rfl, by decide⟩

/-- C6: lift-curve and ROC plotting are defined only for binary
classification: a fitted estimator with more than two classes makes
`plot_lift`, `plot_auc_test` (with at least one test set) and
`plot_auc_traincv` (with at least one fold, fitting preserving the
classes) raise `ValueError` instead of producing a plot. -/
theorem plots_require_binary_classes {Rw P RocT A B D : Type} [Inhabited P]
    (plotter_lift_curve : List P → List Int → Option B → Option Nat → Option Nat →
      B × D)
    (roc_curve : List Int → List P → RocT) (aucF : RocT → A)
    (fitFn : PredEstimator (List Rw) P B → List Rw → List Int →
      PredEstimator (List Rw) P B)
    (pos_label : Nat) (e : PredEstimator (List Rw) P B)
    (x : List Rw) (yv : List Int) (q : Option Nat) (bins : Option B)
    (max_leaf_nodes : Option Nat) (use_self_bins : Bool)
    (xs : List (List Rw)) (ys : List (List Int))
    (splits : List ((List Rw × List Rw) × (List Int × List Int)))
    (hf : e.fitted = true) (hc : e.classes_.length > 2) :
    plot_lift plotter_lift_curve pos_label e x yv q bins max_leaf_nodes
        use_self_bins = .error " estimator should only output binary classes..." ∧
    (xs ≠ [] → xs.length = ys.length →
      plot_auc_test roc_curve aucF pos_label e xs ys =
        .error " estimator should only output binary classes...") ∧
    (splits ≠ [] → (∀ a b, (fitFn e a b).classes_ = e.classes_) →
      plot_auc_traincv fitFn roc_curve aucF pos_label e splits =
        .error " estimator should only output binary classes...") := by
  refine ⟨?_, fun hxs hlen => ?_, fun hsp hfit => ?_⟩
  · simp [plot_lift, check_fitted, hf, _pre_continueous, hc]
  · cases xs with
    | nil => exact absurd rfl hxs
    | cons x0 xs2 =>
        cases ys with
        | nil => exact absurd hlen (by simp)
        | cons y0 ys2 =>
            simp [plot_auc_test, check_fitted, hf, hlen, List.zip_cons_cons,
              eachM, _pre_continueous, hc]
  · cases splits with
    | nil => exact absurd rfl hsp
    | cons s0 rest =>
        simp [plot_auc_traincv, eachM, _pre_continueous, hfit, hc]

/-- Witness for C6 at a concrete input: a fitted three-class estimator
with one test set and one fold. -/
theorem plots_require_binary_classes_witness :
    e3.fitted = true ∧ e3.classes_.length > 2 ∧
      plot_lift plotter0 1 e3 [0] [0] none none none false =
        .error " estimator should only output binary classes..." ∧
      plot_auc_test roc0 auc0 1 e3 [[0]] [[0]] =
        .error " estimator should only output binary classes..." ∧
      plot_auc_traincv fit0 roc0 auc0 1 e3 [(([0], [1]), ([0], [1]))] =
        .error " estimator should only output binary classes..." := by
  have h := plots_require_binary_classes plotter0 roc0 auc0 fit0 1 e3 [0] [0]
    none none none false [[0]] [[0]] [(([0], [1]), ([0], [1]))] rfl (by decide)
  exact ⟨rfl, by decide, h.1, h.2.1 (by decide) rfl, h.2.2 (by decide) (fun a b => rfl)⟩

/-- C10: a call to `run_sensitivity` whose resolved parameter grid is
empty (an empty grid passed, or `param_grid` is `-1` and no predefined
grid exists for any pipeline step) returns without performing any grid
search, leaving `self.estimator` and `self.gridcv_results` unchanged. -/
theorem run_sensitivity_empty_grid_noop {E R Sc S X Y G C : Type}
    (pipe_grid : String → Option (List G)) (named_steps : E → List String)
    (gridSearchCV : E → (String → Option S) → X → Y → G → Int → String → Bool →
      Int → GridSearchOut E C)
    (pd_DataFrame : C → R) (custom : String → Option S) (sk_resolve : String → S)
    (m : MLModel E R Sc) (train_set : X × Y) (param_grid : ParamGridArg G)
    (refit : String) (scoring : ScoringArg) (n_jobs : Int)
    (h : resolve_param_grid pipe_grid (named_steps m.estimator) param_grid = []) :
    (run_sensitivity pipe_grid named_steps gridSearchCV pd_DataFrame custom
        sk_resolve m train_set param_grid refit scoring n_jobs).1.estimator =
      m.estimator ∧
    (run_sensitivity pipe_grid named_steps gridSearchCV pd_DataFrame custom
        sk_resolve m train_set param_grid refit scoring n_jobs).1.gridcv_results =
      m.gridcv_results ∧
    Event.gridSearchStep ∉
      (run_sensitivity pipe_grid named_steps gridSearchCV pd_DataFrame custom
        sk_resolve m train_set param_grid refit scoring n_jobs).2 := by
  refine ⟨?_, ?_, ?_⟩ <;> simp [run_sensitivity, h]

/-- Witness for C10 at a concrete input: `param_grid = -1` with a
pipeline step for which `pipe_grid` has no predefined grid. -/
theorem run_sensitivity_empty_grid_noop_witness :
    resolve_param_grid pg0 (steps0 m0.estimator) ParamGridArg.preset = [] ∧
      (run_sensitivity pg0 steps0 gs0 df0 custom0 skres0 m0 (1, 2)
        ParamGridArg.preset "roc_auc" (.many ["roc_auc", "KS"]) 2).1.estimator =
        m0.estimator ∧
      (run_sensitivity pg0 steps0 gs0 df0 custom0 skres0 m0 (1, 2)
        ParamGridArg.preset "roc_auc" (.many ["roc_auc", "KS"]) 2).1.gridcv_results =
        m0.gridcv_results ∧
      Event.gridSearchStep ∉
        (run_sensitivity pg0 steps0 gs0 df0 custom0 skres0 m0 (1, 2)
          ParamGridArg.preset "roc_auc" (.many ["roc_auc", "KS"]) 2).2 := by
  have h := run_sensitivity_empty_grid_noop pg0 steps0 gs0 df0 custom0 skres0 m0
    (1, 2) ParamGridArg.preset "roc_auc" (.many ["roc_auc", "KS"]) 2 (by decide)
  exact ⟨by decide, h.1, h.2.1, h.2.2⟩

end LwMlearn
